import Mathlib

/-!
Shallow embedding of the ecom_tech_task pipeline (src/data_generator.py,
src/clickhouse_loader.py, src/main.py) and proofs about its specification.

Modelling conventions:
* Calendar dates are day numbers (`Nat`); timestamps are seconds (`Nat`).
* Python randomness (`random.randint`, `random.choice`, `random.choices`)
  is modelled by explicit nondeterminism sources: each draw consumes one
  `Nat` from a caller-supplied stream, reduced into the required range.
  Every proved property holds for every stream, i.e. for every possible
  sequence of random draws.
* `config.py` is not part of the repository snapshot; the configuration
  values it provides (`DATA_GENERATION_CONFIG`, `CITIES`, `EVENTS`,
  `DEVICE_OS`) are modelled as the fields of `GenConfig`, exactly as they
  are consumed by the sources under src/.
* The ClickHouse client (external collaborator `clickhouse_driver.Client`)
  is an opaque capability: a function from the query text to a result or a
  store-level error, and for bulk inserts a success/failure oracle per
  batch index.
-/

namespace EcomTask

/-- Model of Python `random.randint(lo, hi)` (both bounds inclusive), driven by
one draw `n` from the nondeterminism source: the result ranges over exactly
`[lo, hi]` as `n` ranges over `Nat` (for `lo ≤ hi`). -/
def randint (lo hi n : Nat) : Nat := lo + n % (hi - lo + 1)

/-- Model of `DataGenerator._random_date(start_date, end_date)`
(src/data_generator.py lines 156-163): `delta = end - start`,
`random_days = random.randint(0, delta.days)`, result `start + random_days`.
Dates are day numbers. -/
def random_date (startD endD n : Nat) : Nat := startD + n % (endD - startD + 1)

/-- Model of `DataGenerator._random_datetime(date)` (lines 165-172): hour,
minute and second drawn by `random.randint(0, 23)` / `(0, 59)` / `(0, 59)`,
combined with the date; modelled as seconds since epoch. -/
def random_datetime (date hn mn sn : Nat) : Nat :=
  date * 86400 + (randint 0 23 hn) * 3600 + (randint 0 59 mn) * 60 + randint 0 59 sn

/-- Model of `DataGenerator._weighted_random_event` (lines 174-176):
`random.choices(self.events, weights=[0.7, 0.2, 0.1])`, modelled as a
cumulative-distribution lookup over tenths of the draw. -/
def weighted_random_event (events : List String) (n : Nat) : String :=
  if n % 10 < 7 then events.getD 0 ""
  else if n % 10 < 9 then events.getD 1 ""
  else events.getD 2 ""

/-- The configuration values consumed by the generator and orchestrator:
`DATA_GENERATION_CONFIG['num_rows']`, `['batch_size']`, `['start_date']`,
`['end_date']`, and the fixed enumerations `CITIES`, `EVENTS`, `DEVICE_OS`
(config.py is not in the repository snapshot; only these fields are read by
the sources under src/). -/
structure GenConfig where
  num_rows : Nat
  batch_size : Nat
  start_date : Nat
  end_date : Nat
  cities : List String
  events : List String
  device_os : List String
deriving Repr, DecidableEq

/-- One entry of `device_profiles`: the immutable (city, OS, creation date)
tuple attached to a simulated device. Device identifiers (uuid4 strings in
the source, collision-free by construction) are modelled by the device's
index in the population list. -/
structure DeviceProfile where
  city : String
  os : String
  created_date : Nat
deriving Repr, DecidableEq

instance : Inhabited DeviceProfile := ⟨⟨"", "", 0⟩⟩

/-- The random draws consumed when building one device profile
(`random.choice(self.cities)`, `random.choice(self.device_os)`,
`self._random_date(start_date, end_date)`). -/
structure DevDraw where
  cityPick : Nat
  osPick : Nat
  datePick : Nat
deriving Repr

instance : Inhabited DevDraw := ⟨⟨0, 0, 0⟩⟩

/-- The random draws consumed when generating one event record
(`random.choice(device_ids)`, event-date draw, hour/minute/second draws,
weighted event draw). -/
structure RecDraw where
  devPick : Nat
  datePick : Nat
  hourPick : Nat
  minutePick : Nat
  secondPick : Nat
  eventPick : Nat
deriving Repr

instance : Inhabited RecDraw := ⟨⟨0, 0, 0, 0, 0, 0⟩⟩

/-- Model of `unique_devices = max(1000, int(num_rows * 0.1))`, identical in
`generate_dataframe` (line 27) and `generate_data_batches` (line 103).
Python `int(...)` truncates, so this is `max 1000 (num_rows / 10)` with
truncating division (verified to agree with the float computation throughout
the realistic range). -/
def unique_devices (num_rows : Nat) : Nat := max 1000 (num_rows / 10)

/-- Model of one `device_profiles[device_id]` entry (lines 36-44 and 110-118):
city and OS via `random.choice` on the fixed enumerations, creation date via
`_random_date(start_date, end_date)`. -/
def mkProfile (cfg : GenConfig) (d : DevDraw) : DeviceProfile :=
  { city := cfg.cities.getD (d.cityPick % cfg.cities.length) ""
    os := cfg.device_os.getD (d.osPick % cfg.device_os.length) ""
    created_date := random_date cfg.start_date cfg.end_date d.datePick }

/-- The device population built at the start of either generation mode:
`unique_devices` profiles, one per generated `device_id`. -/
def device_profiles (cfg : GenConfig) (num_rows : Nat) (dr : Nat → DevDraw) :
    List DeviceProfile :=
  (List.range (unique_devices num_rows)).map (fun i => mkProfile cfg (dr i))

/-- One generated row: the columns of the `user_events` table.
`device_id` is the index of the owning device in the population list. -/
structure EventRecord where
  date : Nat
  event : String
  device_id : Nat
  event_time : Nat
  city : String
  device_os : String
deriving Repr, DecidableEq

/-- The per-row body shared by `generate_dataframe` (lines 48-72) and
`generate_data_batches` (lines 124-148): pick a random device, draw the event
date with `_random_date(profile['created_date'], end_date)` (not earlier than
the device's creation), draw the time of day, pick a weighted event, and copy
city and OS from the profile. -/
def makeRecord (cfg : GenConfig) (devices : List DeviceProfile) (r : RecDraw) :
    EventRecord :=
  let idx := r.devPick % devices.length
  let profile := devices.getD idx default
  let event_date := random_date profile.created_date cfg.end_date r.datePick
  { date := event_date
    event := weighted_random_event cfg.events r.eventPick
    device_id := idx
    event_time := random_datetime event_date r.hourPick r.minutePick r.secondPick
    city := profile.city
    device_os := profile.os }

/-- Model of `DataGenerator.generate_dataframe(num_rows)` (lines 19-90):
build the device population, generate `num_rows` records, then sort the
result by event time (`df.sort_values('event_time')`). -/
def generate_dataframe (cfg : GenConfig) (num_rows : Nat)
    (dr : Nat → DevDraw) (rr : Nat → RecDraw) : List EventRecord :=
  let devices := device_profiles cfg num_rows dr
  let data := (List.range num_rows).map (fun i => makeRecord cfg devices (rr i))
  data.mergeSort (fun a b => decide (a.event_time ≤ b.event_time))

/-- Model of `DataGenerator.generate_data_batches(batch_size)` (lines 92-154).
The total row count is `self.config['num_rows']` (line 97) — the method takes
no row-count argument. `num_batches = (total_rows + batch_size - 1) //
batch_size`; batch `k` has `current_batch_size = min(batch_size, total_rows -
batch_num * batch_size)` records, drawn with the shared per-row body. -/
def generate_data_batches (cfg : GenConfig) (batch_size : Nat)
    (dr : Nat → DevDraw) (rr : Nat → RecDraw) : List (List EventRecord) :=
  let total_rows := cfg.num_rows
  let num_batches := (total_rows + batch_size - 1) / batch_size
  let devices := device_profiles cfg total_rows dr
  (List.range num_batches).map (fun k =>
    (List.range (min batch_size (total_rows - k * batch_size))).map
      (fun j => makeRecord cfg devices (rr (k * batch_size + j))))

/-- The batch sizes produced by streamed generation. -/
def batch_sizes (cfg : GenConfig) (batch_size : Nat)
    (dr : Nat → DevDraw) (rr : Nat → RecDraw) : List Nat :=
  (generate_data_batches cfg batch_size dr rr).map List.length

/-- The contiguous slicing `data[i:i + batch_size]` performed by
`ClickHouseLoader.load_data` (line 128-129): chunks of at most `B` elements in
input order. -/
def chunksOf (B : Nat) (l : List α) : List (List α) :=
  if h : l.isEmpty = true ∨ B = 0 then [] else l.take B :: chunksOf B (l.drop B)
termination_by l.length
decreasing_by
  rcases not_or.mp h with ⟨h1, h2⟩
  have hl : 0 < l.length := by
    cases l with
    | nil => simp at h1
    | cons a t => simp
  simp only [List.length_drop]
  omega

/-- Outcome of the batch-insert loop of `load_data` (lines 128-159): the store
contents after the run, the batch indices for which a bulk insert was
attempted (in order), and the index of the failing batch, if any. The store
client is abstracted by a success oracle `behave`: `behave k = true` iff the
bulk insert of batch `k` succeeds. -/
structure LoadOutcome (α : Type) where
  store : List α
  attempted : List Nat
  failed : Option Nat
deriving Repr, DecidableEq

/-- The insert loop of `load_data`: each batch is inserted by one
`client.execute` call; success appends the batch to the store and continues;
failure is logged and re-raised (lines 157-159), aborting the loop. -/
def runInserts (behave : Nat → Bool) : List (List α) → Nat → List α → LoadOutcome α
  | [], _, store => ⟨store, [], none⟩
  | b :: rest, k, store =>
    if behave k then
      let o := runInserts behave rest (k + 1) (store ++ b)
      ⟨o.store, k :: o.attempted, o.failed⟩
    else ⟨store, [k], some k⟩

/-- Model of `ClickHouseLoader.load_data(df, table, database, batch_size)`
(lines 100-164): an empty input returns immediately without contacting the
store (lines 105-107); otherwise the rows are sliced into contiguous batches
of at most `batch_size` and inserted in order, stopping at the first
failure. -/
def load_data (behave : Nat → Bool) (store0 data : List α) (batch_size : Nat) :
    LoadOutcome α :=
  if data.isEmpty then ⟨store0, [], none⟩
  else runInserts behave (chunksOf batch_size data) 0 store0

/-- Model of `ClickHouseLoader.load_data_batch(df_batch, table, database)`
(lines 166-200): an empty batch returns without contacting the store; one bulk
insert otherwise, whose failure is logged and re-raised. -/
def load_data_batch (ok : Bool) (store batch : List α) : Except Unit (List α) :=
  if batch.isEmpty then .ok store
  else if ok then .ok (store ++ batch) else .error ()

/-- The opaque store-client capability: `client.execute(sql)` returns result
rows or raises a store-level error (modelled by `Except String`). -/
abbrev Client := String → Except String (List Nat)

/-- Model of `ClickHouseLoader.connect` (src/clickhouse_loader.py lines
22-33), invoked from `__init__` (line 20): builds the client and runs the
connection check `SELECT version()`; any failure is logged and re-raised. -/
def connect (client : Client) : Except String Unit :=
  match client "SELECT version()" with
  | .ok _ => .ok ()
  | .error e => .error e

/-- Model of `ClickHouseLoader.create_database` (lines 40-46): one DDL call;
failure logged and re-raised. -/
def create_database (client : Client) (database_name : String) : Except String Unit :=
  match client ("CREATE DATABASE IF NOT EXISTS " ++ database_name) with
  | .ok _ => .ok ()
  | .error e => .error e

/-- Model of `ClickHouseLoader.show_table_structure` (lines 80-98): runs
`DESCRIBE TABLE`; a failure is caught, logged, and NOT re-raised — the method
always returns normally. -/
def show_table_structure (client : Client) (table database : String) :
    Except String Unit :=
  match client ("DESCRIBE TABLE " ++ database ++ "." ++ table) with
  | .ok _ => .ok ()
  | .error _ => .ok ()

/-- Model of `ClickHouseLoader.create_table` (lines 48-78): creates the
database, runs the `CREATE TABLE IF NOT EXISTS` DDL (failure logged and
re-raised), then shows the table structure. -/
def create_table (client : Client) (table database : String) : Except String Unit :=
  match create_database client database with
  | .error e => .error e
  | .ok _ =>
    match client ("CREATE TABLE IF NOT EXISTS " ++ database ++ "." ++ table) with
    | .error e => .error e
    | .ok _ => show_table_structure client table database

/-- Model of `ClickHouseLoader.verify_data_count` (lines 202-227): both
aggregate queries run inside one try-block whose failure is logged and
swallowed; the method never raises. -/
def verify_data_count (client : Client) (table database : String) :
    Except String Unit :=
  match client ("SELECT COUNT(*) FROM " ++ database ++ "." ++ table) with
  | .error _ => .ok ()
  | .ok _ =>
    match client ("SELECT event, COUNT(*) as count FROM " ++ database ++ "." ++
        table ++ " GROUP BY event ORDER BY count DESC") with
    | .error _ => .ok ()
    | .ok _ => .ok ()

/-- Model of `ClickHouseLoader.execute_query` (lines 229-235): the result is
returned; a failure is logged and re-raised. -/
def execute_query (client : Client) (query : String) : Except String (List Nat) :=
  match client query with
  | .ok r => .ok r
  | .error e => .error e

/-- Observable pipeline actions of one `main` run (src/main.py). -/
inductive Ev
  | connectAttempt
  | generateAll (n : Nat)
  | generateBatch (n : Nat)
  | createTable
  | insert (rows : Nat)
  | verify
  | disconnect
deriving Repr, DecidableEq

/-- Model of `main` (src/main.py lines 10-83) as the trace of pipeline actions
and a success flag. `loader = ClickHouseLoader()` (line 31) runs before
anything else; its constructor connects and, on failure, raises (`connect_ok`
is the connection oracle; store calls past connection are modelled as
succeeding — insert-failure behaviour is proved on `load_data` itself).
Whole-dataset branch: `args.rows <= 1000000` (line 37) generates the full
dataframe; unless `--generate-only`, it creates the table and calls
`load_data` (which slices into chunks and finally verifies). Streamed branch:
unless `--generate-only`, a second loader is built and the table created; then
every batch from `generate_data_batches(args.batch_size)` is passed to
`load_data_batch` (lines 68-70) — this call is NOT guarded by
`--generate-only` — followed by `verify_data_count` and `disconnect`. -/
def mainRun (cfg : GenConfig) (rows batchSize : Nat) (generate_only : Bool)
    (connect_ok : Bool) (dr : Nat → DevDraw) (rr : Nat → RecDraw) :
    List Ev × Bool :=
  if connect_ok = false then ([Ev.connectAttempt], false)
  else if rows ≤ 1000000 then
    let df := generate_dataframe cfg rows dr rr
    let gen := [Ev.connectAttempt, Ev.generateAll df.length]
    if generate_only then (gen, true)
    else
      (gen ++ [Ev.createTable] ++
        (if df = [] then []
         else (chunksOf batchSize df).map (fun b => Ev.insert b.length) ++ [Ev.verify]) ++
        [Ev.disconnect], true)
  else
    let schema := if generate_only then [] else [Ev.connectAttempt, Ev.createTable]
    let batches := generate_data_batches cfg batchSize dr rr
    let loop := batches.flatMap (fun b =>
      Ev.generateBatch b.length ::
        if b.length = 0 then [] else [Ev.insert b.length])
    ([Ev.connectAttempt] ++ schema ++ loop ++ [Ev.verify, Ev.disconnect], true)

/-- Total number of records produced by generation events in a trace. -/
def generatedTotal (t : List Ev) : Nat :=
  (t.map fun e =>
    match e with
    | Ev.generateBatch n => n
    | _ => 0).sum

/-- Recognizer for whole-dataset generation events. -/
def isGenAll : Ev → Bool
  | Ev.generateAll _ => true
  | _ => false

/-- Recognizer for streamed (batch) generation events. -/
def isGenBatch : Ev → Bool
  | Ev.generateBatch _ => true
  | _ => false

end EcomTask

namespace EcomTask

/-! ## Basic facts about random draws and the device population -/

/-- A drawn date lies in the requested inclusive range. -/
lemma random_date_bounds (lo hi n : Nat) (h : lo ≤ hi) :
    lo ≤ random_date lo hi n ∧ random_date lo hi n ≤ hi := by
  unfold random_date
  have h1 : n % (hi - lo + 1) < hi - lo + 1 := Nat.mod_lt _ (by omega)
  omega

/-- A device's creation date is drawn inside the configured date range. -/
lemma mkProfile_created_bounds (cfg : GenConfig) (d : DevDraw)
    (h : cfg.start_date ≤ cfg.end_date) :
    cfg.start_date ≤ (mkProfile cfg d).created_date ∧
    (mkProfile cfg d).created_date ≤ cfg.end_date := by
  simpa [mkProfile] using
    random_date_bounds cfg.start_date cfg.end_date d.datePick h

/-- The population has exactly `unique_devices num_rows` profiles. -/
lemma device_profiles_length (cfg : GenConfig) (n : Nat) (dr : Nat → DevDraw) :
    (device_profiles cfg n dr).length = unique_devices n := by
  simp [device_profiles]

/-- The population is never empty (the floor of 1000 guarantees this). -/
lemma device_profiles_pos (cfg : GenConfig) (n : Nat) (dr : Nat → DevDraw) :
    0 < (device_profiles cfg n dr).length := by
  rw [device_profiles_length]
  unfold unique_devices
  omega

/-- Every profile in the population has its creation date inside the
configured date range. -/
lemma device_profiles_created_bounds (cfg : GenConfig) (n : Nat)
    (dr : Nat → DevDraw) (h : cfg.start_date ≤ cfg.end_date) :
    ∀ p ∈ device_profiles cfg n dr,
      cfg.start_date ≤ p.created_date ∧ p.created_date ≤ cfg.end_date := by
  intro p hp
  simp only [device_profiles, List.mem_map, List.mem_range] at hp
  obtain ⟨i, _, rfl⟩ := hp
  exact mkProfile_created_bounds cfg (dr i) h

/-- Core per-record fact shared by both generation modes: the event date of a
generated record is between the owning device's creation date and the
configured end date. -/
lemma makeRecord_date_bounds (cfg : GenConfig) (devices : List DeviceProfile)
    (r : RecDraw) (hlen : 0 < devices.length)
    (hall : ∀ p ∈ devices, p.created_date ≤ cfg.end_date) :
    (devices.getD (makeRecord cfg devices r).device_id default).created_date ≤
      (makeRecord cfg devices r).date ∧
    (makeRecord cfg devices r).date ≤ cfg.end_date := by
  have hidx : r.devPick % devices.length < devices.length := Nat.mod_lt _ hlen
  have hmem : devices.getD (r.devPick % devices.length) default ∈ devices := by
    rw [List.getD_eq_getElem devices default hidx]
    exact List.getElem_mem hidx
  have hce : (devices.getD (r.devPick % devices.length) default).created_date ≤
      cfg.end_date := hall _ hmem
  have hb := random_date_bounds
    (devices.getD (r.devPick % devices.length) default).created_date
    cfg.end_date r.datePick hce
  simp only [makeRecord]
  exact hb

end EcomTask

namespace EcomTask

/-! ## C5 and C6: generated records -/

/-- C5: for every generated EventRecord, in both generation modes, its event
date is at least the creation date of the owning device and at most the run's
configured end date. -/
theorem event_date_within_device_lifetime (cfg : GenConfig)
    (h : cfg.start_date ≤ cfg.end_date) :
    (∀ (num_rows : Nat) (dr : Nat → DevDraw) (rr : Nat → RecDraw),
      ∀ rec ∈ generate_dataframe cfg num_rows dr rr,
        ((device_profiles cfg num_rows dr).getD rec.device_id default).created_date
            ≤ rec.date ∧
          rec.date ≤ cfg.end_date) ∧
    (∀ (batch_size : Nat) (dr : Nat → DevDraw) (rr : Nat → RecDraw),
      ∀ batch ∈ generate_data_batches cfg batch_size dr rr, ∀ rec ∈ batch,
        ((device_profiles cfg cfg.num_rows dr).getD rec.device_id default).created_date
            ≤ rec.date ∧
          rec.date ≤ cfg.end_date) := by
  have core : ∀ (n : Nat) (dr : Nat → DevDraw) (r : RecDraw),
      ((device_profiles cfg n dr).getD
          (makeRecord cfg (device_profiles cfg n dr) r).device_id
          default).created_date ≤
        (makeRecord cfg (device_profiles cfg n dr) r).date ∧
      (makeRecord cfg (device_profiles cfg n dr) r).date ≤ cfg.end_date := by
    intro n dr r
    exact makeRecord_date_bounds cfg (device_profiles cfg n dr) r
      (device_profiles_pos cfg n dr)
      (fun p hp => (device_profiles_created_bounds cfg n dr h p hp).2)
  constructor
  · intro num_rows dr rr rec hrec
    unfold generate_dataframe at hrec
    rw [(List.mergeSort_perm _ _).mem_iff] at hrec
    simp only [List.mem_map, List.mem_range] at hrec
    obtain ⟨i, _, rfl⟩ := hrec
    exact core num_rows dr (rr i)
  · intro batch_size dr rr batch hbatch rec hrec
    unfold generate_data_batches at hbatch
    simp only [List.mem_map, List.mem_range] at hbatch
    obtain ⟨k, _, rfl⟩ := hbatch
    simp only [List.mem_map, List.mem_range] at hrec
    obtain ⟨j, _, rfl⟩ := hrec
    exact core cfg.num_rows dr (rr (k * batch_size + j))

/-- A small concrete configuration used to instantiate proved theorems:
10 rows, batch size 4, a four-day date range, and singleton enumerations. -/
def cfg10 : GenConfig :=
  { num_rows := 10
    batch_size := 4
    start_date := 0
    end_date := 3
    cities := ["Moscow"]
    events := ["view", "purchase", "add_to_cart"]
    device_os := ["Android"] }

/-- A fixed device-draw stream (all draws zero). -/
def d0 : Nat → DevDraw := fun _ => default

/-- A fixed record-draw stream (all draws zero). -/
def r0 : Nat → RecDraw := fun _ => default

/-- Witness for C5 at the concrete configuration `cfg10`. -/
theorem event_date_within_device_lifetime_witness :
    cfg10.start_date ≤ cfg10.end_date ∧
    ((∀ (num_rows : Nat) (dr : Nat → DevDraw) (rr : Nat → RecDraw),
      ∀ rec ∈ generate_dataframe cfg10 num_rows dr rr,
        ((device_profiles cfg10 num_rows dr).getD rec.device_id default).created_date
            ≤ rec.date ∧
          rec.date ≤ cfg10.end_date) ∧
    (∀ (batch_size : Nat) (dr : Nat → DevDraw) (rr : Nat → RecDraw),
      ∀ batch ∈ generate_data_batches cfg10 batch_size dr rr, ∀ rec ∈ batch,
        ((device_profiles cfg10 cfg10.num_rows dr).getD rec.device_id default).created_date
            ≤ rec.date ∧
          rec.date ≤ cfg10.end_date)) :=
  ⟨by decide, event_date_within_device_lifetime cfg10 (by decide)⟩

/-- The record list built by `generate_dataframe` (its value on the inputs
where the source call returns) has exactly the requested length and is
pairwise non-decreasing in event time. -/
lemma generate_dataframe_length_sorted (cfg : GenConfig) (num_rows : Nat)
    (dr : Nat → DevDraw) (rr : Nat → RecDraw) :
    (generate_dataframe cfg num_rows dr rr).length = num_rows ∧
    (generate_dataframe cfg num_rows dr rr).Pairwise
      (fun a b => a.event_time ≤ b.event_time) := by
  constructor
  · unfold generate_dataframe
    rw [List.length_mergeSort, List.length_map, List.length_range]
  · unfold generate_dataframe
    have hs := @List.sorted_mergeSort EventRecord
      (fun a b => decide (a.event_time ≤ b.event_time))
      (fun a b c hab hbc => by
        simp only [decide_eq_true_eq] at hab hbc ⊢
        omega)
      (fun a b => by
        simp only [Bool.or_eq_true, decide_eq_true_eq]
        omega)
      ((List.range num_rows).map
        (fun i => makeRecord cfg (device_profiles cfg num_rows dr) (rr i)))
    exact hs.imp (fun hab => by simpa using hab)

/-- Model of the full call behaviour of `DataGenerator.generate_dataframe`
(lines 19-90) including its error path: with `num_rows = 0` the body builds
`pd.DataFrame([])` — an empty frame with no columns at all — and
`df.sort_values('event_time')` (line 78) raises `KeyError` (as would the
`df['date']` summary at line 82), so the call never returns a DataFrame;
with `num_rows ≥ 1` it returns the sorted records of `generate_dataframe`. -/
def generate_dataframe_result (cfg : GenConfig) (num_rows : Nat)
    (dr : Nat → DevDraw) (rr : Nat → RecDraw) :
    Except String (List EventRecord) :=
  if num_rows = 0 then Except.error "KeyError: event_time"
  else Except.ok (generate_dataframe cfg num_rows dr rr)

/-- C6 counterexample: at requested row count N = 0 whole-dataset generation
does not return 0 sorted records — the source raises (`sort_values` on the
column-less empty DataFrame), so the call produces no record list at all. -/
theorem generate_dataframe_zero_raises :
    generate_dataframe_result cfg10 0 d0 r0 =
      Except.error "KeyError: event_time" ∧
    (∀ l : List EventRecord,
      generate_dataframe_result cfg10 0 d0 r0 ≠ Except.ok l) := by
  constructor
  · rfl
  · intro l
    simp [generate_dataframe_result]

/-- C6 (amended): for every requested row count N ≥ 1, whole-dataset
generation returns normally with exactly N records, sorted non-decreasing by
event timestamp; at N = 0 the source raises a `KeyError` instead of returning
an empty result. -/
theorem generate_dataframe_count_and_sorted_pos (cfg : GenConfig)
    (num_rows : Nat) (dr : Nat → DevDraw) (rr : Nat → RecDraw)
    (h : 1 ≤ num_rows) :
    generate_dataframe_result cfg num_rows dr rr =
      Except.ok (generate_dataframe cfg num_rows dr rr) ∧
    (generate_dataframe cfg num_rows dr rr).length = num_rows ∧
    (generate_dataframe cfg num_rows dr rr).Pairwise
      (fun a b => a.event_time ≤ b.event_time) := by
  refine ⟨?_, (generate_dataframe_length_sorted cfg num_rows dr rr).1,
    (generate_dataframe_length_sorted cfg num_rows dr rr).2⟩
  unfold generate_dataframe_result
  rw [if_neg (by omega)]

/-- Witness for the amended C6 at `cfg10` with 10 requested rows. -/
theorem generate_dataframe_count_and_sorted_pos_witness :
    1 ≤ (10 : Nat) ∧
    (generate_dataframe_result cfg10 10 d0 r0 =
      Except.ok (generate_dataframe cfg10 10 d0 r0) ∧
    (generate_dataframe cfg10 10 d0 r0).length = 10 ∧
    (generate_dataframe cfg10 10 d0 r0).Pairwise
      (fun a b => a.event_time ≤ b.event_time)) :=
  ⟨by decide,
    generate_dataframe_count_and_sorted_pos cfg10 10 d0 r0 (by decide)⟩

end EcomTask

namespace EcomTask

/-! ## Arithmetic of the batching scheme -/

/-- The Python idiom `(N + B - 1) // B` computes the ceiling of `N / B`. -/
lemma ceil_div_cases (N B : Nat) (hB : 0 < B) :
    (N + B - 1) / B = if N % B = 0 then N / B else N / B + 1 := by
  split
  case isTrue h =>
    obtain ⟨q, rfl⟩ : ∃ q, N = q * B :=
      ⟨N / B, (Nat.div_mul_cancel (Nat.dvd_of_mod_eq_zero h)).symm⟩
    rw [Nat.mul_div_cancel _ hB]
    cases q with
    | zero =>
      simp [Nat.div_eq_of_lt (by omega : B - 1 < B)]
    | succ q' =>
      have e : (q' + 1) * B + B - 1 = (B - 1 + B) + q' * B := by
        rw [Nat.succ_mul]
        omega
      rw [e, Nat.add_mul_div_right _ _ hB, Nat.add_div_right _ hB,
        Nat.div_eq_of_lt (by omega : B - 1 < B)]
      omega
  case isFalse h =>
    have hd := Nat.div_add_mod N B
    have hc : B * (N / B) = N / B * B := Nat.mul_comm _ _
    have hr : N % B < B := Nat.mod_lt _ hB
    have e : N + B - 1 = (N % B - 1 + B) + (N / B) * B := by omega
    rw [e, Nat.add_mul_div_right _ _ hB, Nat.add_div_right _ hB,
      Nat.div_eq_of_lt (by omega : N % B - 1 < B)]
    omega

/-- Every batch except possibly the last is full. -/
lemma batch_size_full (N B i : Nat) (hB : 0 < B)
    (hi : i + 1 < (N + B - 1) / B) : min B (N - i * B) = B := by
  have h1 : ((N + B - 1) / B) * B ≤ N + B - 1 := Nat.div_mul_le_self _ _
  have h2 : (i + 2) * B ≤ ((N + B - 1) / B) * B :=
    Nat.mul_le_mul_right _ (by omega)
  have h3 : (i + 2) * B = i * B + 2 * B := by ring
  apply Nat.min_eq_left
  omega

/-- The size of the last batch: `N mod B`, or `B` when `B` divides `N`. -/
lemma batch_size_last (N B : Nat) (hB : 0 < B) (hN : 1 ≤ N) :
    min B (N - ((N + B - 1) / B - 1) * B) =
      if N % B = 0 then B else N % B := by
  by_cases h : N % B = 0
  · rw [if_pos h, ceil_div_cases N B hB, if_pos h]
    obtain ⟨q, rfl⟩ : ∃ q, N = q * B :=
      ⟨N / B, (Nat.div_mul_cancel (Nat.dvd_of_mod_eq_zero h)).symm⟩
    have hq : 1 ≤ q := by
      rcases Nat.eq_zero_or_pos q with rfl | hq
      · simp at hN
      · exact hq
    rw [Nat.mul_div_cancel _ hB]
    have e : (q - 1) * B = q * B - B := by
      rw [Nat.sub_mul, Nat.one_mul]
    have hB' : B ≤ q * B := Nat.le_mul_of_pos_left B hq
    rw [e]
    have e2 : q * B - (q * B - B) = B := by omega
    rw [e2, Nat.min_self]
  · rw [if_neg h, ceil_div_cases N B hB, if_neg h]
    have hr : N % B < B := Nat.mod_lt _ hB
    have e : N / B + 1 - 1 = N / B := rfl
    rw [e]
    have e2 : N - (N / B) * B = N % B := by
      have hd := Nat.div_add_mod N B
      have hc : B * (N / B) = N / B * B := Nat.mul_comm _ _
      generalize N / B = q at hd hc ⊢
      generalize N % B = r at hd ⊢
      omega
    rw [e2]
    exact Nat.min_eq_right (Nat.le_of_lt hr)

/-- The batch sizes add up to the requested total. -/
lemma batch_sizes_sum (B : Nat) (hB : 0 < B) :
    ∀ N, ((List.range ((N + B - 1) / B)).map (fun k => min B (N - k * B))).sum = N := by
  intro N
  induction N using Nat.strong_induction_on with
  | _ N ih =>
    rcases Nat.eq_zero_or_pos N with rfl | hN
    · rw [Nat.div_eq_of_lt (by omega : 0 + B - 1 < B)]
      simp
    rcases le_or_lt N B with hNB | hBN
    · have hnb : (N + B - 1) / B = 1 := by
        have e : N + B - 1 = (N - 1) + B := by omega
        rw [e, Nat.add_div_right _ hB, Nat.div_eq_of_lt (by omega : N - 1 < B)]
      rw [hnb, show List.range 1 = [0] from rfl]
      simp only [List.map_cons, List.map_nil, List.sum_cons,
        List.sum_nil, Nat.zero_mul, Nat.sub_zero, Nat.add_zero]
      exact Nat.min_eq_right hNB
    · have hnb : (N + B - 1) / B = ((N - B) + B - 1) / B + 1 := by
        have e : N + B - 1 = ((N - B) + B - 1) + B := by omega
        rw [e, Nat.add_div_right _ hB]
      rw [hnb, List.range_succ_eq_map, List.map_cons, List.sum_cons, List.map_map]
      have e2 : ((fun k => min B (N - k * B)) ∘ Nat.succ) =
          (fun k => min B ((N - B) - k * B)) := by
        funext k
        simp only [Function.comp, Nat.succ_mul]
        congr 1
        omega
      rw [e2, ih (N - B) (by omega)]
      have : min B (N - 0 * B) = B := by
        simp [Nat.min_eq_left (Nat.le_of_lt hBN)]
      rw [this]
      omega

/-- The sizes of the streamed batches are exactly the source's
`min(batch_size, total_rows - batch_num * batch_size)` over all batch
numbers. -/
lemma batch_sizes_eq (cfg : GenConfig) (B : Nat)
    (dr : Nat → DevDraw) (rr : Nat → RecDraw) :
    batch_sizes cfg B dr rr =
      (List.range ((cfg.num_rows + B - 1) / B)).map
        (fun k => min B (cfg.num_rows - k * B)) := by
  unfold batch_sizes generate_data_batches
  simp only [List.map_map]
  apply List.map_congr_left
  intro k _
  simp [Function.comp]

end EcomTask

namespace EcomTask

/-! ## C3: device-population size -/

/-- A generated record always references a device inside the population. -/
lemma makeRecord_device_id_lt (cfg : GenConfig) (devices : List DeviceProfile)
    (r : RecDraw) (hlen : 0 < devices.length) :
    (makeRecord cfg devices r).device_id < devices.length := by
  simp only [makeRecord]
  exact Nat.mod_lt _ hlen

/-- The length of `generate_dataframe` is the requested row count. -/
lemma generate_dataframe_length (cfg : GenConfig) (num_rows : Nat)
    (dr : Nat → DevDraw) (rr : Nat → RecDraw) :
    (generate_dataframe cfg num_rows dr rr).length = num_rows := by
  unfold generate_dataframe
  rw [List.length_mergeSort, List.length_map, List.length_range]

/-- C3 counterexample: at target row count 10015 the code creates
`max(1000, int(10015 * 0.1)) = 1001` devices, while the claimed formula
`max(1000, ceil(0.10 × 10015)) = max(1000, 1002) = 1002` differs. -/
theorem device_population_not_ceil :
    (device_profiles cfg10 10015 d0).length = 1001 ∧
    max 1000 ((10015 + 10 - 1) / 10) = 1002 ∧
    (device_profiles cfg10 10015 d0).length ≠ max 1000 ((10015 + 10 - 1) / 10) := by
  refine ⟨?_, by norm_num, ?_⟩
  · rw [device_profiles_length]
    norm_num [unique_devices]
  · rw [device_profiles_length]
    norm_num [unique_devices]

/-- C3 (amended): for every target row count N ≥ 1, both generation paths use
a device population of exactly `max(1000, floor(0.10 × N))` distinct devices
(the code truncates `N * 0.1`; it does not round up), and every generated
record references a device index inside that population. -/
theorem device_population_floor (cfg : GenConfig) (num_rows : Nat)
    (dr : Nat → DevDraw) (h : 1 ≤ num_rows) :
    (device_profiles cfg num_rows dr).length = max 1000 (num_rows / 10) ∧
    (∀ (rr : Nat → RecDraw), ∀ rec ∈ generate_dataframe cfg num_rows dr rr,
      rec.device_id < max 1000 (num_rows / 10)) ∧
    (∀ (B : Nat) (rr : Nat → RecDraw),
      ∀ batch ∈ generate_data_batches cfg B dr rr, ∀ rec ∈ batch,
        rec.device_id < max 1000 (cfg.num_rows / 10)) := by
  refine ⟨device_profiles_length cfg num_rows dr, ?_, ?_⟩
  · intro rr rec hrec
    unfold generate_dataframe at hrec
    rw [(List.mergeSort_perm _ _).mem_iff] at hrec
    simp only [List.mem_map, List.mem_range] at hrec
    obtain ⟨i, _, rfl⟩ := hrec
    have := makeRecord_device_id_lt cfg (device_profiles cfg num_rows dr)
      (rr i) (device_profiles_pos cfg num_rows dr)
    rwa [device_profiles_length] at this
  · intro B rr batch hbatch rec hrec
    unfold generate_data_batches at hbatch
    simp only [List.mem_map, List.mem_range] at hbatch
    obtain ⟨k, _, rfl⟩ := hbatch
    simp only [List.mem_map, List.mem_range] at hrec
    obtain ⟨j, _, rfl⟩ := hrec
    have := makeRecord_device_id_lt cfg (device_profiles cfg cfg.num_rows dr)
      (rr (k * B + j)) (device_profiles_pos cfg cfg.num_rows dr)
    rwa [device_profiles_length] at this

/-- Witness for the amended C3 at the concrete configuration `cfg10`. -/
theorem device_population_floor_witness :
    1 ≤ (10 : Nat) ∧
    ((device_profiles cfg10 10 d0).length = max 1000 (10 / 10) ∧
    (∀ (rr : Nat → RecDraw), ∀ rec ∈ generate_dataframe cfg10 10 d0 rr,
      rec.device_id < max 1000 (10 / 10)) ∧
    (∀ (B : Nat) (rr : Nat → RecDraw),
      ∀ batch ∈ generate_data_batches cfg10 B d0 rr, ∀ rec ∈ batch,
        rec.device_id < max 1000 (cfg10.num_rows / 10))) :=
  ⟨by decide, device_population_floor cfg10 10 d0 (by decide)⟩

/-! ## C4: streamed batching shape -/

/-- The last element of a map over an initial segment. -/
lemma last_of_range_map {α : Type} (f : Nat → α) (n : Nat) (hn : 1 ≤ n) :
    ((List.range n).map f).getLast? = some (f (n - 1)) := by
  rw [show n = (n - 1) + 1 from by omega, List.range_succ, List.map_append]
  simp

/-- C4: streamed generation with total N = `num_rows` ≥ 1 and batch size
B ≥ 1 yields exactly ceil(N/B) batches; every batch but the last has exactly
B records; the last has N mod B records (or B when B divides N); and the
total across all batches is N. -/
theorem streamed_batching_shape (cfg : GenConfig) (B : Nat)
    (dr : Nat → DevDraw) (rr : Nat → RecDraw)
    (hN : 1 ≤ cfg.num_rows) (hB : 1 ≤ B) :
    (generate_data_batches cfg B dr rr).length = (cfg.num_rows + B - 1) / B ∧
    (cfg.num_rows % B = 0 →
      (generate_data_batches cfg B dr rr).length = cfg.num_rows / B) ∧
    (cfg.num_rows % B ≠ 0 →
      (generate_data_batches cfg B dr rr).length = cfg.num_rows / B + 1) ∧
    (∀ i, i + 1 < (generate_data_batches cfg B dr rr).length →
      (batch_sizes cfg B dr rr).getD i 0 = B) ∧
    (batch_sizes cfg B dr rr).getLast? =
      some (if cfg.num_rows % B = 0 then B else cfg.num_rows % B) ∧
    (batch_sizes cfg B dr rr).sum = cfg.num_rows := by
  have hB0 : 0 < B := hB
  have hlen : (generate_data_batches cfg B dr rr).length =
      (cfg.num_rows + B - 1) / B := by
    unfold generate_data_batches
    simp
  have hnb : 1 ≤ (cfg.num_rows + B - 1) / B := by
    rw [Nat.le_div_iff_mul_le hB0]
    omega
  refine ⟨hlen, ?_, ?_, ?_, ?_, ?_⟩
  · intro h0
    rw [hlen, ceil_div_cases _ _ hB0, if_pos h0]
  · intro h0
    rw [hlen, ceil_div_cases _ _ hB0, if_neg h0]
  · intro i hi
    rw [hlen] at hi
    rw [batch_sizes_eq]
    rw [List.getD_eq_getElem _ _ (by simp only [List.length_map, List.length_range]; omega)]
    simp only [List.getElem_map, List.getElem_range]
    exact batch_size_full cfg.num_rows B i hB0 hi
  · rw [batch_sizes_eq, last_of_range_map _ _ hnb,
      batch_size_last cfg.num_rows B hB0 hN]
  · rw [batch_sizes_eq]
    exact batch_sizes_sum B hB0 cfg.num_rows

/-- Witness for C4 at `cfg10` (num_rows = 10) with batch size 4, including
the spec's scenario: the batch sizes are exactly [4, 4, 2]. -/
theorem streamed_batching_shape_witness :
    1 ≤ cfg10.num_rows ∧ 1 ≤ (4 : Nat) ∧
    batch_sizes cfg10 4 d0 r0 = [4, 4, 2] ∧
    ((generate_data_batches cfg10 4 d0 r0).length = (cfg10.num_rows + 4 - 1) / 4 ∧
    (cfg10.num_rows % 4 = 0 →
      (generate_data_batches cfg10 4 d0 r0).length = cfg10.num_rows / 4) ∧
    (cfg10.num_rows % 4 ≠ 0 →
      (generate_data_batches cfg10 4 d0 r0).length = cfg10.num_rows / 4 + 1) ∧
    (∀ i, i + 1 < (generate_data_batches cfg10 4 d0 r0).length →
      (batch_sizes cfg10 4 d0 r0).getD i 0 = 4) ∧
    (batch_sizes cfg10 4 d0 r0).getLast? =
      some (if cfg10.num_rows % 4 = 0 then 4 else cfg10.num_rows % 4) ∧
    (batch_sizes cfg10 4 d0 r0).sum = cfg10.num_rows) :=
  ⟨by decide, by decide, by decide,
    streamed_batching_shape cfg10 4 d0 r0 (by decide) (by decide)⟩

end EcomTask

namespace EcomTask

/-! ## C9: streamed mode ignores the requested row count -/

/-- `generatedTotal` distributes over concatenation. -/
lemma generatedTotal_append (s t : List Ev) :
    generatedTotal (s ++ t) = generatedTotal s + generatedTotal t := by
  simp [generatedTotal]

/-- The generation events of the streamed loop account for exactly the batch
sizes produced by the generator. -/
lemma generatedTotal_loop (bs : List (List EventRecord)) :
    generatedTotal (bs.flatMap (fun b =>
      Ev.generateBatch b.length ::
        if b.length = 0 then [] else [Ev.insert b.length])) =
      (bs.map List.length).sum := by
  induction bs with
  | nil => simp [generatedTotal]
  | cons b t ih =>
    rw [List.flatMap_cons, generatedTotal_append, ih]
    by_cases hb : b.length = 0
    · simp [generatedTotal, hb]
    · simp [generatedTotal, hb]

/-- C9: in streamed mode the total number of generated records is always the
configured `num_rows` from the generation configuration — independent of the
row count `rows` requested by the caller, which the orchestrator never passes
to `generate_data_batches` (the generator accepts only a batch size). -/
theorem streamed_total_ignores_requested_rows (cfg : GenConfig)
    (rows B : Nat) (go : Bool) (dr : Nat → DevDraw) (rr : Nat → RecDraw)
    (hrows : 1000000 < rows) (hB : 0 < B) :
    (batch_sizes cfg B dr rr).sum = cfg.num_rows ∧
    generatedTotal (mainRun cfg rows B go true dr rr).1 = cfg.num_rows := by
  have hsum : (batch_sizes cfg B dr rr).sum = cfg.num_rows := by
    rw [batch_sizes_eq]
    exact batch_sizes_sum B hB cfg.num_rows
  refine ⟨hsum, ?_⟩
  unfold mainRun
  rw [if_neg (by simp), if_neg (by omega)]
  dsimp only
  rw [generatedTotal_append, generatedTotal_append, generatedTotal_append,
    generatedTotal_loop]
  unfold batch_sizes at hsum
  rw [hsum]
  cases go <;> simp [generatedTotal]

end EcomTask

namespace EcomTask

/-! ## C2: mode selection threshold -/

/-- The streamed loop contains one batch-generation event per batch and no
whole-dataset generation event. -/
lemma filter_loop_genBatch (bs : List (List EventRecord)) :
    (bs.flatMap (fun b =>
      Ev.generateBatch b.length ::
        if b.length = 0 then [] else [Ev.insert b.length])).filter isGenBatch =
      bs.map (fun b => Ev.generateBatch b.length) := by
  induction bs with
  | nil => simp
  | cons b t ih =>
    rw [List.flatMap_cons, List.filter_append, ih]
    by_cases hb : b.length = 0 <;> simp [isGenBatch, hb]

/-- The streamed loop contains no whole-dataset generation event. -/
lemma filter_loop_genAll (bs : List (List EventRecord)) :
    (bs.flatMap (fun b =>
      Ev.generateBatch b.length ::
        if b.length = 0 then [] else [Ev.insert b.length])).filter isGenAll = [] := by
  induction bs with
  | nil => simp
  | cons b t ih =>
    rw [List.flatMap_cons, List.filter_append, ih]
    by_cases hb : b.length = 0 <;> simp [isGenAll, hb]

/-- The trace of a successfully connected run in the whole-dataset branch. -/
lemma mainRun_whole (cfg : GenConfig) (rows B : Nat) (go : Bool)
    (dr : Nat → DevDraw) (rr : Nat → RecDraw) (h6 : rows ≤ 1000000) :
    mainRun cfg rows B go true dr rr =
      (if go then [Ev.connectAttempt, Ev.generateAll rows]
       else [Ev.connectAttempt, Ev.generateAll rows, Ev.createTable] ++
         (if generate_dataframe cfg rows dr rr = [] then []
          else (chunksOf B (generate_dataframe cfg rows dr rr)).map
            (fun b => Ev.insert b.length) ++ [Ev.verify]) ++
         [Ev.disconnect], true) := by
  unfold mainRun
  rw [if_neg (by simp), if_pos h6]
  cases go <;> simp [generate_dataframe_length]

/-- The trace of a successfully connected run in the streamed branch. -/
lemma mainRun_streamed (cfg : GenConfig) (rows B : Nat) (go : Bool)
    (dr : Nat → DevDraw) (rr : Nat → RecDraw) (h6 : 1000000 < rows) :
    mainRun cfg rows B go true dr rr =
      ((Ev.connectAttempt ::
          (if go then [] else [Ev.connectAttempt, Ev.createTable])) ++
        (generate_data_batches cfg B dr rr).flatMap (fun b =>
          Ev.generateBatch b.length ::
            if b.length = 0 then [] else [Ev.insert b.length]) ++
        [Ev.verify, Ev.disconnect], true) := by
  unfold mainRun
  rw [if_neg (by simp), if_neg (by omega)]
  cases go <;> simp

/-- C2 counterexample: at exactly N = 1,000,000 the orchestrator takes the
whole-dataset branch (`args.rows <= 1000000`), not the streamed one — the
trace is a single whole-dataset generation and contains no batch events. -/
theorem threshold_boundary_not_streamed :
    (mainRun cfg10 1000000 4 true true d0 r0).1 =
      [Ev.connectAttempt, Ev.generateAll 1000000] ∧
    (∀ n, Ev.generateBatch n ∉ (mainRun cfg10 1000000 4 true true d0 r0).1) := by
  have h1 : (mainRun cfg10 1000000 4 true true d0 r0).1 =
      [Ev.connectAttempt, Ev.generateAll 1000000] := by
    rw [mainRun_whole cfg10 1000000 4 true d0 r0 (by norm_num)]
    simp
  refine ⟨h1, ?_⟩
  intro n
  rw [h1]
  simp

/-- C2 (amended): the orchestrator uses the whole-dataset mode exactly when
the requested row count is ≤ 1,000,000 and the streamed mode exactly when it
is > 1,000,000; at N = 1,000,000 the whole-dataset mode is used. -/
theorem mode_selection_threshold (cfg : GenConfig) (rows B : Nat) (go : Bool)
    (dr : Nat → DevDraw) (rr : Nat → RecDraw) (hB : 0 < B) :
    (rows ≤ 1000000 →
      (mainRun cfg rows B go true dr rr).1.filter isGenAll =
        [Ev.generateAll rows] ∧
      (mainRun cfg rows B go true dr rr).1.filter isGenBatch = []) ∧
    (1000000 < rows →
      (mainRun cfg rows B go true dr rr).1.filter isGenAll = [] ∧
      ((mainRun cfg rows B go true dr rr).1.filter isGenBatch).length =
        (cfg.num_rows + B - 1) / B) := by
  constructor
  · intro h6
    rw [mainRun_whole cfg rows B go dr rr h6]
    cases go
    · by_cases hdf : generate_dataframe cfg rows dr rr = [] <;>
        constructor <;>
          simp [hdf, List.filter_append, List.filter, isGenAll, isGenBatch,
            List.filter_eq_nil_iff]
    · constructor <;> simp [List.filter, isGenAll, isGenBatch]
  · intro h6
    rw [mainRun_streamed cfg rows B go dr rr h6]
    have hlen : (generate_data_batches cfg B dr rr).length =
        (cfg.num_rows + B - 1) / B := by
      unfold generate_data_batches
      simp
    dsimp only
    constructor
    · rw [List.filter_append, List.filter_append, filter_loop_genAll]
      cases go <;> simp [List.filter, isGenAll]
    · rw [List.filter_append, List.filter_append, filter_loop_genBatch]
      cases go <;> simp [List.filter, isGenBatch, hlen]

/-- Witness for the amended C2 on both sides of the threshold. -/
theorem mode_selection_threshold_witness :
    0 < (4 : Nat) ∧
    ((1000000 ≤ 1000000 →
      (mainRun cfg10 1000000 4 true true d0 r0).1.filter isGenAll =
        [Ev.generateAll 1000000] ∧
      (mainRun cfg10 1000000 4 true true d0 r0).1.filter isGenBatch = []) ∧
    (1000000 < 1000000 →
      (mainRun cfg10 1000000 4 true true d0 r0).1.filter isGenAll = [] ∧
      ((mainRun cfg10 1000000 4 true true d0 r0).1.filter isGenBatch).length =
        (cfg10.num_rows + 4 - 1) / 4)) :=
  ⟨by decide, mode_selection_threshold cfg10 1000000 4 true d0 r0 (by decide)⟩

/-! ## C1: generate-only still loads in the streamed branch -/

/-- In the streamed branch (requested rows > 1,000,000) a `--generate-only`
run still issues one bulk insert per generated batch and still runs the
post-load verification; only the schema-creation step is skipped. This is the
behaviour of src/main.py lines 55-74, where the loop calling
`load_data_batch` is not guarded by `args.generate_only`. -/
theorem generate_only_streamed_still_loads :
    Ev.insert 4 ∈ (mainRun cfg10 1000001 4 true true d0 r0).1 ∧
    Ev.verify ∈ (mainRun cfg10 1000001 4 true true d0 r0).1 ∧
    Ev.createTable ∉ (mainRun cfg10 1000001 4 true true d0 r0).1 := by
  decide

/-! ## C10: the loader is constructed (and connects) before generation -/

/-- C10: every run constructs the loader first: a failed connection produces
an error run whose trace contains only the connection attempt (no generation,
no schema work, no load) — including generate-only runs; every run's first
action is the connection attempt; and `connect` re-raises the store error
from its connection-check query `SELECT version()`. -/
theorem loader_connects_first (cfg : GenConfig) (rows batchSize : Nat)
    (go ok : Bool) (dr : Nat → DevDraw) (rr : Nat → RecDraw)
    (client : Client) (e : String)
    (hc : client "SELECT version()" = Except.error e) :
    mainRun cfg rows batchSize go false dr rr = ([Ev.connectAttempt], false) ∧
    (mainRun cfg rows batchSize go ok dr rr).1.head? = some Ev.connectAttempt ∧
    connect client = Except.error e := by
  refine ⟨?_, ?_, ?_⟩
  · unfold mainRun
    rw [if_pos rfl]
  · cases ok
    · unfold mainRun
      rw [if_pos rfl]
      rfl
    · by_cases h6 : rows ≤ 1000000
      · rw [mainRun_whole cfg rows batchSize go dr rr h6]
        cases go <;> simp
      · rw [mainRun_streamed cfg rows batchSize go dr rr (by omega)]
        simp
  · unfold connect
    rw [hc]

/-- Witness for C10: a client whose connection-check query fails. -/
theorem loader_connects_first_witness :
    ((fun _ => Except.error "store unreachable" : Client) "SELECT version()" =
      Except.error "store unreachable") ∧
    (mainRun cfg10 5 2 true false d0 r0 = ([Ev.connectAttempt], false) ∧
    (mainRun cfg10 5 2 true true d0 r0).1.head? = some Ev.connectAttempt ∧
    connect (fun _ => Except.error "store unreachable") =
      Except.error "store unreachable") :=
  ⟨rfl, loader_connects_first cfg10 5 2 true true d0 r0
    (fun _ => Except.error "store unreachable") "store unreachable" rfl⟩

end EcomTask

namespace EcomTask

/-! ## C7: load_data batching and failure contract -/

/-- Chunking the empty list gives no chunks. -/
lemma chunksOf_nil {α : Type} (B : Nat) : chunksOf B ([] : List α) = [] := by
  rw [chunksOf]
  simp

/-- Unfolding of `chunksOf` on a nonempty list with a positive batch size. -/
lemma chunksOf_cons {α : Type} (B : Nat) (l : List α) (hB : 0 < B)
    (hl : l ≠ []) :
    chunksOf B l = l.take B :: chunksOf B (l.drop B) := by
  rw [chunksOf]
  rw [dif_neg]
  simp only [List.isEmpty_iff, not_or]
  exact ⟨hl, by omega⟩

/-- Every chunk holds at most `B` elements. -/
lemma chunksOf_le {α : Type} (B : Nat) (hB : 0 < B) (l : List α) :
    ∀ c ∈ chunksOf B l, c.length ≤ B := by
  have main : ∀ (n : Nat) (l : List α), l.length ≤ n →
      ∀ c ∈ chunksOf B l, c.length ≤ B := by
    intro n
    induction n with
    | zero =>
      intro l hl c hc
      have : l = [] := List.eq_nil_of_length_eq_zero (by omega)
      subst this
      rw [chunksOf_nil] at hc
      cases hc
    | succ n ih =>
      intro l hl c hc
      rcases eq_or_ne l [] with rfl | hne
      · rw [chunksOf_nil] at hc
        cases hc
      · rw [chunksOf_cons B l hB hne] at hc
        rcases List.mem_cons.mp hc with rfl | hc
        · exact List.length_take_le _ _
        · have hpos : 0 < l.length := List.length_pos.mpr hne
          exact ih (l.drop B) (by simp only [List.length_drop]; omega) c hc
  exact main l.length l le_rfl

/-- The chunks concatenate back to the input: the slicing is a partition of
the data into contiguous runs. -/
lemma chunksOf_flatten {α : Type} (B : Nat) (hB : 0 < B) (l : List α) :
    (chunksOf B l).flatten = l := by
  have main : ∀ (n : Nat) (l : List α), l.length ≤ n →
      (chunksOf B l).flatten = l := by
    intro n
    induction n with
    | zero =>
      intro l hl
      have : l = [] := List.eq_nil_of_length_eq_zero (by omega)
      subst this
      rw [chunksOf_nil]
      rfl
    | succ n ih =>
      intro l hl
      rcases eq_or_ne l [] with rfl | hne
      · rw [chunksOf_nil]
        rfl
      · rw [chunksOf_cons B l hB hne, List.flatten_cons]
        have hpos : 0 < l.length := List.length_pos.mpr hne
        rw [ih (l.drop B) (by simp only [List.length_drop]; omega)]
        exact List.take_append_drop B l
  exact main l.length l le_rfl

/-- When every insert succeeds, the loop commits every batch in order and
attempts each batch index exactly once. -/
lemma runInserts_all_ok {α : Type} (behave : Nat → Bool)
    (h : ∀ i, behave i = true) :
    ∀ (bs : List (List α)) (k : Nat) (store : List α),
      runInserts behave bs k store =
        ⟨store ++ bs.flatten, List.range' k bs.length, none⟩ := by
  intro bs
  induction bs with
  | nil =>
    intro k store
    simp [runInserts]
  | cons b t ih =>
    intro k store
    rw [runInserts, if_pos (h k), ih (k + 1) (store ++ b)]
    simp [List.range'_succ]

/-- When the first failing insert is batch `j` (relative to starting index
`k`), the loop stops there: batches before `j` are committed, exactly the
indices up to and including the failing one were attempted once each, in
order, and the failure index is reported. -/
lemma runInserts_first_fail {α : Type} (behave : Nat → Bool) :
    ∀ (bs : List (List α)) (k : Nat) (store : List α) (j : Nat),
      j < bs.length → (∀ i, i < j → behave (k + i) = true) →
      behave (k + j) = false →
      runInserts behave bs k store =
        ⟨store ++ (bs.take j).flatten, List.range' k (j + 1), some (k + j)⟩ := by
  intro bs
  induction bs with
  | nil =>
    intro k store j hj _ _
    simp at hj
  | cons b t ih =>
    intro k store j hj hok hfail
    cases j with
    | zero =>
      rw [runInserts, if_neg (by simpa using hfail)]
      simp [List.range'_succ]
    | succ j' =>
      have hk : behave k = true := by
        have := hok 0 (by omega)
        simpa using this
      rw [runInserts, if_pos hk,
        ih (k + 1) (store ++ b) j' (by simpa using hj)
          (fun i hi => by
            have := hok (i + 1) (by omega)
            rwa [show k + (i + 1) = k + 1 + i from by omega] at this)
          (by rwa [show k + 1 + j' = k + (j' + 1) from by omega])]
      simp [List.range'_succ, List.flatten_cons, List.append_assoc]
      omega

/-- C7: `load_data` partitions its input into contiguous slices of at most
`batch_size` records and issues one bulk insert per batch in input order.
When every insert succeeds, the whole input (and nothing else) is committed
after the initial store contents. When the insert of batch `k` is the first
to fail, the load stops and reports the failure: exactly batches `0..k` were
attempted (each once, in order — no retry, nothing after `k`), and the store
holds the initial contents plus batches `0..k-1` (no rollback). -/
theorem load_data_contract {α : Type} (B : Nat) (hB : 0 < B)
    (store0 data : List α) (behave : Nat → Bool) :
    (∀ c ∈ chunksOf B data, c.length ≤ B) ∧
    (chunksOf B data).flatten = data ∧
    ((∀ i, behave i = true) →
      load_data behave store0 data B =
        ⟨store0 ++ data, List.range (chunksOf B data).length, none⟩) ∧
    (∀ k, k < (chunksOf B data).length →
      (∀ i, i < k → behave i = true) → behave k = false →
      load_data behave store0 data B =
        ⟨store0 ++ ((chunksOf B data).take k).flatten,
          List.range (k + 1), some k⟩) := by
  refine ⟨chunksOf_le B hB data, chunksOf_flatten B hB data, ?_, ?_⟩
  · intro hall
    unfold load_data
    rcases eq_or_ne data [] with rfl | hne
    · simp [chunksOf_nil]
    · rw [if_neg (by simpa using hne)]
      rw [runInserts_all_ok behave hall (chunksOf B data) 0 store0]
      rw [chunksOf_flatten B hB data, List.range_eq_range']
  · intro k hk hok hfail
    unfold load_data
    rcases eq_or_ne data [] with rfl | hne
    · rw [chunksOf_nil] at hk
      simp at hk
    · rw [if_neg (by simpa using hne)]
      rw [runInserts_first_fail behave (chunksOf B data) 0 store0 k hk
        (fun i hi => by simpa using hok i hi) (by simpa using hfail)]
      rw [List.range_eq_range']
      simp

/-- Witness for C7: five rows with batch size 2, where the insert of batch
index 1 (the second batch) fails. -/
theorem load_data_contract_witness :
    0 < (2 : Nat) ∧
    ((∀ c ∈ chunksOf 2 [10, 20, 30, 40, 50], c.length ≤ 2) ∧
    (chunksOf 2 [10, 20, 30, 40, 50]).flatten = [10, 20, 30, 40, 50] ∧
    ((∀ i, (fun i => decide (i = 0)) i = true) →
      load_data (fun i => decide (i = 0)) [] [10, 20, 30, 40, 50] 2 =
        ⟨[] ++ [10, 20, 30, 40, 50],
          List.range (chunksOf 2 [10, 20, 30, 40, 50]).length, none⟩) ∧
    (∀ k, k < (chunksOf 2 [10, 20, 30, 40, 50]).length →
      (∀ i, i < k → (fun i => decide (i = 0)) i = true) →
      (fun i => decide (i = 0)) k = false →
      load_data (fun i => decide (i = 0)) [] [10, 20, 30, 40, 50] 2 =
        ⟨[] ++ ((chunksOf 2 [10, 20, 30, 40, 50]).take k).flatten,
          List.range (k + 1), some k⟩)) :=
  ⟨by decide, load_data_contract 2 (by decide) [] [10, 20, 30, 40, 50]
    (fun i => decide (i = 0))⟩

end EcomTask

namespace EcomTask

/-! ## C8: propagation of store-level failures -/

/-- C8 counterexample: `show_table_structure` is not the verification
operation, yet it catches a store-level failure (here a failing `DESCRIBE
TABLE` query) and returns normally instead of re-raising it. -/
theorem show_table_structure_swallows :
    show_table_structure (fun _ => Except.error "connection reset")
      "user_events" "default" = Except.ok () := rfl

/-- C8 (amended): store-level failures inside `connect`, `create_database`,
`create_table` (its database-creation and DDL calls), `execute_query` and
`load_data_batch` are re-raised to the immediate caller, while failures
inside `verify_data_count` AND inside `show_table_structure` (including the
`DESCRIBE` issued from within `create_table`) are caught, logged and not
propagated. -/
theorem store_error_propagation {α : Type} (e : String)
    (q table database : String) (store batch : List α) (hb : batch ≠ []) :
    connect (fun _ => Except.error e) = Except.error e ∧
    create_database (fun _ => Except.error e) database = Except.error e ∧
    create_table (fun _ => Except.error e) table database = Except.error e ∧
    execute_query (fun _ => Except.error e) q = Except.error e ∧
    load_data_batch false store batch = Except.error () ∧
    show_table_structure (fun _ => Except.error e) table database =
      Except.ok () ∧
    verify_data_count (fun _ => Except.error e) table database =
      Except.ok () ∧
    create_table
      (fun s => if s = "DESCRIBE TABLE default.user_events"
        then Except.error e else Except.ok [])
      "user_events" "default" = Except.ok () := by
  refine ⟨rfl, rfl, rfl, rfl, ?_, rfl, rfl, ?_⟩
  · unfold load_data_batch
    rw [if_neg (by simpa using hb)]
    rfl
  · rfl

/-- Witness for the amended C8 at concrete inputs. -/
theorem store_error_propagation_witness :
    ([0] : List Nat) ≠ [] ∧
    (connect (fun _ => Except.error "boom") = Except.error "boom" ∧
    create_database (fun _ => Except.error "boom") "default" =
      Except.error "boom" ∧
    create_table (fun _ => Except.error "boom") "user_events" "default" =
      Except.error "boom" ∧
    execute_query (fun _ => Except.error "boom") "SELECT 1" =
      Except.error "boom" ∧
    load_data_batch false ([] : List Nat) [0] = Except.error () ∧
    show_table_structure (fun _ => Except.error "boom") "user_events"
      "default" = Except.ok () ∧
    verify_data_count (fun _ => Except.error "boom") "user_events"
      "default" = Except.ok () ∧
    create_table
      (fun s => if s = "DESCRIBE TABLE default.user_events"
        then Except.error "boom" else Except.ok [])
      "user_events" "default" = Except.ok ()) :=
  ⟨by decide, store_error_propagation "boom" "SELECT 1" "user_events"
    "default" [] [0] (by decide)⟩

end EcomTask

namespace EcomTask

/-- Witness for C9: a requested row count of 1,000,001 with batch size 4 —
the generated total is the configured `num_rows` (10 for `cfg10`), not the
requested 1,000,001. -/
theorem streamed_total_ignores_requested_rows_witness :
    1000000 < (1000001 : Nat) ∧ 0 < (4 : Nat) ∧
    ((batch_sizes cfg10 4 d0 r0).sum = cfg10.num_rows ∧
    generatedTotal (mainRun cfg10 1000001 4 true true d0 r0).1 =
      cfg10.num_rows) :=
  ⟨by decide, by decide,
    streamed_total_ignores_requested_rows cfg10 1000001 4 true d0 r0
      (by decide) (by decide)⟩

end EcomTask
